import Mathlib

/-!
Shallow embedding of the real-time relay core of the Real-Time-Chat-Application
repository: `src/services/socket.js` (WebSocket relay) and
`src/database/redis.js` (broker client).  Both files are ES modules, so every
read of an undeclared identifier throws a `ReferenceError`; the embedding keeps
those control paths explicit.  Stateful JavaScript is modelled by explicit
state passing: an operation takes the state and returns the updated state
together with an `Except` result (`.error` models a thrown exception; the
returned state is the global state at the moment of the throw, since JS
exceptions never roll back completed mutations).
-/

namespace Chat

/-- JS primitive values used as the fields of the flat JSON records relayed by
this application (room, sender, body, timestamp). -/
inductive JsPrim where
  | pstr (s : String)
  | pnum (n : Int)
  | pbool (b : Bool)
  | pnull
deriving DecidableEq

/-- JS values as they reach `publishToChannel`: strings, numbers, booleans,
`null`, and flat objects (records of primitives).  This is the fragment of JS
values the relay actually transports. -/
inductive JsValue where
  | str (s : String)
  | num (n : Int)
  | jbool (b : Bool)
  | null
  | obj (fields : List (String × JsPrim))
deriving DecidableEq

/-- The JS `typeof` operator on `JsValue`.  Note `typeof null` is `"object"`
in JavaScript. -/
def typeofJs : JsValue → String
  | .str _ => "string"
  | .num _ => "number"
  | .jbool _ => "boolean"
  | .null => "object"
  | .obj _ => "object"

/-- JSON string quoting (the relayed field strings contain no characters that
JSON.stringify would escape, so quoting is plain wrapping). -/
def jsonQuote (s : String) : String := "\"" ++ s ++ "\""

/-- Model of `JSON.stringify` on a primitive field value. -/
def jsonOfPrim : JsPrim → String
  | .pstr s => jsonQuote s
  | .pnum n => toString n
  | .pbool true => "true"
  | .pbool false => "false"
  | .pnull => "null"

/-- Model of `JSON.stringify` on the value fragment transported by the relay. -/
def jsonStringify : JsValue → String
  | .str s => jsonQuote s
  | .num n => toString n
  | .jbool true => "true"
  | .jbool false => "false"
  | .null => "null"
  | .obj fields =>
      "\x7b" ++
        String.intercalate ","
          (fields.map (fun kv => jsonQuote kv.1 ++ ":" ++ jsonOfPrim kv.2)) ++
      "\x7d"

/-- JS `Set.prototype.add`: insertion-ordered, deduplicating. -/
def setAdd {α : Type} [DecidableEq α] (l : List α) (x : α) : List α :=
  if x ∈ l then l else l ++ [x]

/-- A JS function value: `ref` is its object identity (reference equality),
`name` its `Function.prototype.name` attribute (`""` for anonymous arrows). -/
structure Handler where
  ref : Nat
  name : String
deriving DecidableEq

/-- Errors observable from the embedded code.  `referenceError v` models the
strict-mode `ReferenceError` raised by reading the undeclared identifier `v`;
`jsError m` models `new Error(m)` being thrown; `notJoined` is the error the
specification's `onMessage` contract demands for a sender publishing to a room
it has not joined — the source never constructs it, and the constructor exists
only so that the contract can be stated. -/
inductive JsError where
  | referenceError (varName : String)
  | jsError (message : String)
  | notJoined
deriving DecidableEq

/-- State of `src/database/redis.js`: the two client handles (`redisClient`
for commands, `pubSubClient` for subscriptions; `...Exists` models the handle
being non-null, `...Open` its `isOpen` flag), the module-level
`connectionState.subscriptions` Set of `JSON.stringify(\x7bchannel, callback\x7d)`
entries (modelled as ordered, deduplicated (channel, callbackName) pairs), the
`global` object entries written by `subscribeTochannel` for anonymous
callbacks, the node-redis per-channel listener sets of the pub/sub client, and
the sequence of payloads handed to `redisClient.publish` (the wire). -/
structure RedisState where
  pubSubExists : Bool
  pubSubOpen : Bool
  mainExists : Bool
  mainOpen : Bool
  subscriptions : List (String × String)
  globals : String → Option Nat
  clientListeners : String → List Nat
  published : List (String × JsValue)

/-- Model of `subscribeTochannel(channel, callback)` (redis.js lines 258-286).
Throws when `pubSubClient` is null or not open, before touching any state.
Otherwise: `callbackName = callback.name || "callback_" + Date.now()` (the
current time is the explicit `now` argument); anonymous callbacks are stored
on `global`; the `(channel, callbackName)` record is added to the
`connectionState.subscriptions` Set; and `pubSubClient.subscribe` adds the
function to the channel's listener set (node-redis stores listeners per
channel in a `Set`, so re-adding the same function reference is a no-op). -/
def subscribeTochannel (s : RedisState) (channel : String) (callback : Handler)
    (now : Nat) : RedisState × Except JsError Unit :=
  if !s.pubSubExists || !s.pubSubOpen then
    (s, .error (.jsError "Redis PubSub client not connected"))
  else
    let callbackName := if callback.name = "" then "callback_" ++ toString now
      else callback.name
    let globals1 := if callback.name = "" then
        fun k => if k = callbackName then some callback.ref else s.globals k
      else s.globals
    let subs1 := setAdd s.subscriptions (channel, callbackName)
    let listeners1 := fun ch =>
      if ch = channel then setAdd (s.clientListeners ch) callback.ref
      else s.clientListeners ch
    ({ s with globals := globals1, subscriptions := subs1,
              clientListeners := listeners1 }, .ok ())

/-- Model of `publishToChannel(channel, message)` (redis.js lines 327-345).  Throws
when `redisClient` is null or not open, before anything is sent or queued.
Otherwise serializes: `typeof message === 'object'` payloads through
`JSON.stringify`, everything else (in particular strings) passed through
unchanged, and hands the result to `redisClient.publish`. -/
def publishToChannel (s : RedisState) (channel : String) (message : JsValue) :
    RedisState × Except JsError Unit :=
  if !s.mainExists || !s.mainOpen then
    (s, .error (.jsError "Redis client not connected"))
  else
    let messageString := if typeofJs message = "object" then
        JsValue.str (jsonStringify message)
      else message
    ({ s with published := s.published ++ [(channel, messageString)] }, .ok ())

/-- Maximum number of reconnection attempts (redis.js line 33). -/
def MAX_RECONNECT_ATTEMPTS : Nat := 12

/-- Base delay in ms for exponential backoff (redis.js line 36). -/
def BASE_RECONNECT_DELAY : Nat := 1000

/-- Model of `reconnectStrategy(retries)` (redis.js lines 70-90), translated
faithfully.
Both branches assign to a property of `connectState`, an identifier that is
declared nowhere (the module declares `connectionState`); reading it throws a
`ReferenceError` in strict mode.  In the `retries >= MAX_RECONNECT_ATTEMPTS`
branch the throw (line 75) happens before the error object is returned; in the
other branch the throw (line 80) happens before the backoff delay is even
computed.  So the function throws on every input and never returns. -/
def reconnectStrategy (retries : Nat) : Except JsError Nat :=
  if MAX_RECONNECT_ATTEMPTS ≤ retries then
    .error (.referenceError "connectState")
  else
    .error (.referenceError "connectState")

/-- The backoff-delay expression of redis.js lines 83-86,
`Math.min(BASE_RECONNECT_DELAY * Math.pow(2, retries), 60000)`, exactly as
written in the source.  It is unreachable at runtime (see
`reconnectStrategy`), but records the delay the strategy was meant to
return. -/
def reconnectDelayExpr (retries : Nat) : Nat :=
  min (BASE_RECONNECT_DELAY * 2 ^ retries) 60000

/-- JS `channel.includes('*')`: the one-character substring test used by
`resubscribeTochannels` to distinguish patterns from plain channels. -/
def includesStar (s : String) : Bool := s.data.any (fun c => c = '*')

/-- A listener installed on the pub/sub client: either an original function
reference (installed by `subscribeTochannel`), or one of the wrapper closures
installed by `resubscribeTochannels` after a reconnect, which carry only the
stored callback NAME. -/
inductive Listener where
  | direct (h : Handler)
  | patternWrapper (callbackName : String)
  | channelWrapper (callbackName : String)
deriving DecidableEq

/-- The listener `resubscribeTochannels` (redis.js lines 149-184) installs for
one stored `(channel, callbackName)` record: a `pSubscribe` wrapper when the
channel contains `*`, a `subscribe` wrapper otherwise. -/
def resubscribeListener (entry : String × String) : Listener :=
  if includesStar entry.1 then .patternWrapper entry.2
  else .channelWrapper entry.2

/-- Model of `resubscribeTochannels`: resubscribes every stored record, installing a
name-based wrapper for each (the original function references are not stored,
as the source comments admit). -/
def resubscribeTochannels (subs : List (String × String)) :
    List (String × Listener) :=
  subs.map (fun e => (e.1, resubscribeListener e))

/-- Outcome of a listener receiving one broker message: the handler with
identity `ref` ran; or the wrapper logged `Cannot find handler function ...`
and dropped the message; or the wrapper itself threw. -/
inductive DispatchResult where
  | handled (ref : Nat) (message channel : String)
  | warned (callbackName : String)
  | thrown (e : JsError)
deriving DecidableEq

/-- Deliver one message to one installed listener, given the `global` object.
A direct listener runs the original function.  The pattern wrapper (redis.js
lines 160-167) evaluates `typeof global[back]` where `back` is an undeclared
identifier, so it throws a `ReferenceError`.  The channel wrapper (lines
170-176) looks up `global[callback]` by the stored name and warns without
invoking anything when no function is found there. -/
def invokeListener (globals : String → Option Nat) (l : Listener)
    (message channel : String) : DispatchResult :=
  match l with
  | .direct h => .handled h.ref message channel
  | .patternWrapper _ => .thrown (.referenceError "back")
  | .channelWrapper cbName =>
      match globals cbName with
      | some r => .handled r message channel
      | none => .warned cbName

/-- The socket.io adapter's room state: the membership pairs
`(socket id, room)`.  socket.io stores rooms as `Map<Room, Set<SocketId>>`
(and the mirror `sids` map), so membership is a set; the list keeps insertion
order with no duplicates under the operations below. -/
structure SocketState where
  members : List (Nat × String)
deriving DecidableEq

/-- Model of `socket.join(room)` as run by the `join` handler (socket.js lines 37-40):
adds the pair to the adapter's sets (`Set.add`, hence deduplicating). -/
def joinRoom (s : SocketState) (sid : Nat) (room : String) : SocketState :=
  ⟨setAdd s.members (sid, room)⟩

/-- Model of `socket.leave(room)` as run by the `leave` handler (socket.js lines
43-46): deletes the pair from the adapter's sets (`Set.delete`, absent pair is
a no-op). -/
def leaveRoom (s : SocketState) (sid : Nat) (room : String) : SocketState :=
  ⟨s.members.filter (fun p => p != (sid, room))⟩

/-- socket.io's internal cleanup when a socket disconnects: the adapter
removes the socket id from every room (`socket.leaveAll`). -/
def disconnectCleanup (s : SocketState) (sid : Nat) : SocketState :=
  ⟨s.members.filter (fun p => p.1 != sid)⟩

/-- One delivery performed by `io.to(room).emit(event, payload)`. -/
structure Emit where
  target : Nat
  event : String
  payload : String
deriving DecidableEq

/-- Model of `io.to(room).emit(ev, payload)`: socket.io delivers the event to exactly
the sockets currently in `room`. -/
def emitToRoom (s : SocketState) (room : String) (ev : String)
    (payload : String) : List Emit :=
  (s.members.filter (fun p => p.2 == room)).map (fun p => ⟨p.1, ev, payload⟩)

/-- Model of `handleMesage(message, channel)` (socket.js lines 64-67): broadcast the
broker-delivered message to the socket.io room named after the channel it
arrived on. -/
def handleMesage (s : SocketState) (message channel : String) : List Emit :=
  emitToRoom s channel "message" message

/-- The `message` handler (socket.js lines 49-61), translated faithfully.
After the initial log statement it executes
`const \x7b room, message \x7d = messageData;` — but `messageData` is declared
nowhere (the handler's parameter is `data`), so the destructuring throws a
`ReferenceError` on every invocation, before `publishToChannel` is reached;
the nested `disconnect` handler registration below the publish is likewise
never reached. -/
def onMessage (data : JsValue) (r : RedisState) :
    RedisState × Except JsError Unit :=
  (r, .error (.referenceError "messageData"))

/-- Combined state of one relay process: the socket.io adapter, the redis
module state, and a supply of fresh function identities (each `connection`
event creates a new `handleMesage` closure object). -/
structure SystemState where
  socks : SocketState
  redis : RedisState
  nextRef : Nat

/-- The client-observable events handled by `io.on('connection')`
(socket.js lines 33-72). -/
inductive Event where
  | connect (sid : Nat)
  | joinEv (sid : Nat) (room : String)
  | leaveEv (sid : Nat) (room : String)
  | message (sid : Nat) (data : JsValue)
  | disconnect (sid : Nat)

/-- One step of the relay.  `connect` runs the connection handler body, whose
only state effect is `subscribeTochannel('chat:*', handleMesage)` with a fresh
closure named `handleMesage` (the `Date.now()` argument is irrelevant because
the callback is named).  `join`/`leave` run the room handlers.  `message` runs
the message handler (which throws, leaving redis state unchanged).
`disconnect` runs socket.io's internal room cleanup; the user-level disconnect
handler only logs — and is in fact registered inside the message handler after
the throwing line, so it never even runs. -/
def step (st : SystemState) (e : Event) : SystemState :=
  match e with
  | .connect _ =>
      let h : Handler := ⟨st.nextRef, "handleMesage"⟩
      { st with redis := (subscribeTochannel st.redis "chat:*" h 0).1,
                nextRef := st.nextRef + 1 }
  | .joinEv sid room => { st with socks := joinRoom st.socks sid room }
  | .leaveEv sid room => { st with socks := leaveRoom st.socks sid room }
  | .message _ data => { st with redis := (onMessage data st.redis).1 }
  | .disconnect sid => { st with socks := disconnectCleanup st.socks sid }

/-- Number of local connections currently joined to `room`. -/
def memberCount (st : SystemState) (room : String) : Nat :=
  (st.socks.members.filter (fun p => p.2 == room)).length

/-- Whether the broker subscription registry holds an entry for the channel of
`room` (publishing for room R goes to the channel named R, see the `message`
handler and `publishToChannel`). -/
def hasSubscriptionFor (st : SystemState) (room : String) : Bool :=
  st.redis.subscriptions.any (fun e => e.1 == room)

/-- State right after `connectRedis` succeeded and the WebSocket server was
attached: both redis clients exist and are open, no subscriptions, no rooms,
nothing published. -/
def initialState : SystemState :=
  ⟨⟨[]⟩, ⟨true, true, true, true, [], fun _ => none, fun _ => [], []⟩, 0⟩

/-- Reachable trace for the room-subscription invariant: one client connects
and joins room `lobby`. -/
def c1State : SystemState :=
  step (step initialState (.connect 1)) (.joinEv 1 "lobby")

/-- Reachable trace for the disconnect-cleanup property: one client connects,
joins the room named `chat:*` (the one channel that does get a broker
subscription), then disconnects, emptying the room. -/
def c4StateMid : SystemState :=
  step (step initialState (.connect 1)) (.joinEv 1 "chat:*")

/-- The `c4StateMid` trace continued by the disconnect. -/
def c4State : SystemState :=
  step c4StateMid (.disconnect 1)

/-- Adding an element to a JS Set twice is the same as adding it once. -/
theorem setAdd_idem {α : Type} [DecidableEq α] (l : List α) (x : α) :
    setAdd (setAdd l x) x = setAdd l x := by
  unfold setAdd
  by_cases h : x ∈ l
  · simp [h]
  · simp [h]

/-- C1, counterexample: in the reachable state where one client has connected
and joined room `lobby`, the room has one local member but no broker
subscription for its channel exists (the only subscription is the fixed
`chat:*` entry added by the connection handler), so the claimed iff fails. -/
theorem room_subscription_iff_counterexample :
    ¬(hasSubscriptionFor c1State "lobby" = true ↔
        0 < memberCount c1State "lobby") := by
  decide

/-- C1, amended: broker subscriptions are independent of room membership —
join, leave, disconnect and message events leave the subscription registry
unchanged, and each connection event set-inserts the single fixed entry
`("chat:*", "handleMesage")` (a no-op after the first connection). -/
theorem subscriptions_unaffected_by_membership (st : SystemState) (sid : Nat)
    (room : String) (data : JsValue) :
    (step st (.joinEv sid room)).redis.subscriptions =
        st.redis.subscriptions ∧
    (step st (.leaveEv sid room)).redis.subscriptions =
        st.redis.subscriptions ∧
    (step st (.disconnect sid)).redis.subscriptions =
        st.redis.subscriptions ∧
    (step st (.message sid data)).redis.subscriptions =
        st.redis.subscriptions ∧
    (st.redis.pubSubExists = true → st.redis.pubSubOpen = true →
      (step st (.connect sid)).redis.subscriptions =
        setAdd st.redis.subscriptions ("chat:*", "handleMesage")) := by
  refine ⟨rfl, rfl, rfl, rfl, ?_⟩
  intro hE hO
  simp [step, subscribeTochannel, hE, hO]

/-- C1, witness for the amended theorem at the initial state. -/
theorem subscriptions_unaffected_by_membership_witness :
    (step initialState (.connect 1)).redis.subscriptions =
      setAdd initialState.redis.subscriptions ("chat:*", "handleMesage") ∧
    (step initialState (.joinEv 1 "lobby")).redis.subscriptions =
      initialState.redis.subscriptions :=
  ⟨(subscriptions_unaffected_by_membership initialState 1 "lobby" .null).2.2.2.2
      rfl rfl,
   (subscriptions_unaffected_by_membership initialState 1 "lobby" .null).1⟩

/-- C2: the fan-out step for a message `M` delivered on channel `R` emits
exactly to the connections locally joined to room `R` — a connection receives
the emit iff it is a member, and every emitted frame carries event `message`,
payload `M`, and targets a member of `R`. -/
theorem fanout_exact_membership (s : SocketState) (M R : String) (c : Nat) :
    ((⟨c, "message", M⟩ : Emit) ∈ handleMesage s M R ↔ (c, R) ∈ s.members) ∧
    (∀ e ∈ handleMesage s M R,
      e.event = "message" ∧ e.payload = M ∧ (e.target, R) ∈ s.members) := by
  unfold handleMesage emitToRoom
  constructor
  · constructor
    · intro hmem
      rcases List.mem_map.mp hmem with ⟨p, hp, heq⟩
      rcases List.mem_filter.mp hp with ⟨hpm, hpr⟩
      cases heq
      have : p.2 = R := by simpa using hpr
      rw [← this]
      exact hpm
    · intro hmem
      refine List.mem_map.mpr ⟨(c, R), List.mem_filter.mpr ⟨hmem, by simp⟩, rfl⟩
  · intro e he
    rcases List.mem_map.mp he with ⟨p, hp, heq⟩
    rcases List.mem_filter.mp hp with ⟨hpm, hpr⟩
    cases heq
    have : p.2 = R := by simpa using hpr
    exact ⟨rfl, rfl, by rw [← this]; exact hpm⟩

/-- C2, witness: with members `(1, lobby)` and `(2, den)`, connection 1
receives the broadcast for `lobby` and connection 3 does not. -/
theorem fanout_exact_membership_witness :
    ((⟨1, "message", "hi"⟩ : Emit) ∈
        handleMesage ⟨[(1, "lobby"), (2, "den")]⟩ "hi" "lobby") ∧
    ¬((⟨3, "message", "hi"⟩ : Emit) ∈
        handleMesage ⟨[(1, "lobby"), (2, "den")]⟩ "hi" "lobby") :=
  ⟨(fanout_exact_membership ⟨[(1, "lobby"), (2, "den")]⟩ "hi" "lobby" 1).1.mpr
      (by decide),
   fun hmem => absurd
     ((fanout_exact_membership ⟨[(1, "lobby"), (2, "den")]⟩ "hi" "lobby" 3).1.mp
       hmem)
     (by decide)⟩

/-- C3, counterexample: an inbound chat message naming room `lobby` from a
connection that has joined nothing is not rejected with the `NotJoined` error
the claim demands — the handler throws `ReferenceError` on the undeclared
identifier `messageData` (for joined senders just the same), and no membership
check is ever reached. -/
theorem message_not_rejected_notJoined :
    (onMessage (.obj [("room", .pstr "lobby"), ("message", .pstr "hi")])
        initialState.redis).2 = .error (.referenceError "messageData") ∧
    (onMessage (.obj [("room", .pstr "lobby"), ("message", .pstr "hi")])
        initialState.redis).2 ≠ .error .notJoined :=
  ⟨rfl, fun h => absurd (Except.error.inj h) (by decide)⟩

/-- C3, amended: the relay performs no membership validation at all — every
inbound chat message fails with a `ReferenceError` on the undeclared
identifier `messageData` before the publish line, so nothing is ever published
for any inbound message, joined or not. -/
theorem message_always_reference_error (data : JsValue) (r : RedisState) :
    onMessage data r = (r, .error (.referenceError "messageData")) ∧
    (onMessage data r).1.published = r.published :=
  ⟨rfl, rfl⟩

/-- C4, counterexample: a client connects (creating the `chat:*` broker
subscription), joins the room named `chat:*`, then disconnects.  The
disconnect does empty every room it was in, but the room's broker subscription
is not removed — the registry still holds the `chat:*` entry. -/
theorem disconnect_keeps_subscription_counterexample :
    memberCount c4StateMid "chat:*" = 1 ∧
    memberCount c4State "chat:*" = 0 ∧
    c4State.socks.members = [] ∧
    ¬(hasSubscriptionFor c4State "chat:*" = false) := by
  decide

/-- C4, amended: processing a disconnect removes the connection from every
room it was joined to (socket.io's internal cleanup), but the broker
subscription registry is never touched — no room that empties loses a
subscription. -/
theorem disconnect_removes_membership_keeps_subscriptions (st : SystemState)
    (sid : Nat) (room : String) :
    (sid, room) ∉ (step st (.disconnect sid)).socks.members ∧
    (step st (.disconnect sid)).redis.subscriptions =
      st.redis.subscriptions := by
  refine ⟨?_, rfl⟩
  intro hmem
  simp only [step, disconnectCleanup] at hmem
  rcases List.mem_filter.mp hmem with ⟨_, hne⟩
  simp at hne

/-- C4, witness for the amended theorem at the initial state. -/
theorem disconnect_removes_membership_keeps_subscriptions_witness :
    (1, "lobby") ∉ (step initialState (.disconnect 1)).socks.members ∧
    (step initialState (.disconnect 1)).redis.subscriptions =
      initialState.redis.subscriptions :=
  disconnect_removes_membership_keeps_subscriptions initialState 1 "lobby"

/-- C5: the reconnection strategy never returns the claimed backoff delay nor
the fatal error at the attempt cap — on every input it throws a
`ReferenceError` on the undeclared identifier `connectState` before returning
(below the cap the throw precedes the delay computation; at or above the cap
it precedes the `return error`).  The delay expression written in the source
(dead code) does equal `min(1000 * 2^n, 60000)` as the claim states. -/
theorem reconnectStrategy_throws_referenceError :
    reconnectStrategy 0 = .error (.referenceError "connectState") ∧
    reconnectStrategy 11 = .error (.referenceError "connectState") ∧
    reconnectStrategy 12 = .error (.referenceError "connectState") ∧
    reconnectDelayExpr 0 = 1000 ∧
    reconnectDelayExpr 5 = 32000 ∧
    reconnectDelayExpr 6 = 60000 ∧
    reconnectDelayExpr 11 = 60000 :=
  ⟨rfl, rfl, rfl, rfl, rfl, rfl, rfl⟩

/-- An anonymous callback (empty `Function.name`), as passed when an inline
arrow is subscribed. -/
def anonHandler : Handler := ⟨5, ""⟩

/-- One `subscribeTochannel` call with the anonymous callback at time 100. -/
def c6Once : RedisState :=
  (subscribeTochannel initialState.redis "chat:room1" anonHandler 100).1

/-- The same call repeated at time 101. -/
def c6Twice : RedisState :=
  (subscribeTochannel c6Once "chat:room1" anonHandler 101).1

/-- C6, counterexample: subscribing twice to the same channel with the same
anonymous handler does not leave the client in the same state as subscribing
once — each call generates a fresh `callback_<Date.now()>` name, so the
registry gains a second entry for the channel. -/
theorem subscribe_anonymous_not_idempotent :
    c6Once.subscriptions = [("chat:room1", "callback_100")] ∧
    c6Twice.subscriptions =
      [("chat:room1", "callback_100"), ("chat:room1", "callback_101")] ∧
    c6Twice.subscriptions ≠ c6Once.subscriptions := by
  decide

/-- The connected-case effect of `subscribeTochannel` for a named callback:
the registry set-inserts `(channel, name)` and the channel's listener set
set-inserts the function reference; nothing else changes. -/
theorem subscribeTochannel_connected (s : RedisState) (ch : String)
    (h : Handler) (t : Nat) (hE : s.pubSubExists = true)
    (hO : s.pubSubOpen = true) (hn : h.name ≠ "") :
    (subscribeTochannel s ch h t).1 =
      { s with
          subscriptions := setAdd s.subscriptions (ch, h.name),
          clientListeners := fun c =>
            if c = ch then setAdd (s.clientListeners c) h.ref
            else s.clientListeners c } := by
  simp [subscribeTochannel, hE, hO, hn]

/-- C6, amended: subscription is idempotent for named handlers — calling
`subscribeTochannel` twice with the same channel and the same handler whose
name is nonempty (the repository's own usage: the named `handleMesage`
callback) yields exactly the state of calling it once, whatever the two call
times: one registry entry and one listener registration for the channel.  (The
counterexample shows this fails for anonymous handlers.) -/
theorem subscribe_named_idempotent (s : RedisState) (ch : String)
    (h : Handler) (t1 t2 : Nat) (hn : h.name ≠ "") :
    (subscribeTochannel (subscribeTochannel s ch h t1).1 ch h t2).1 =
      (subscribeTochannel s ch h t1).1 := by
  cases hE : s.pubSubExists
  · simp [subscribeTochannel, hE]
  · cases hO : s.pubSubOpen
    · simp [subscribeTochannel, hE, hO]
    · rw [subscribeTochannel_connected s ch h t1 hE hO hn,
          subscribeTochannel_connected
            ({ s with
                subscriptions := setAdd s.subscriptions (ch, h.name),
                clientListeners := fun c =>
                  if c = ch then setAdd (s.clientListeners c) h.ref
                  else s.clientListeners c }) ch h t2 hE hO hn]
      congr 1
      · exact setAdd_idem _ _
      · funext c
        by_cases hc : c = ch
        · simp [hc, setAdd_idem]
        · simp [hc]

/-- C6, witness for the amended theorem: the repository's own named
`handleMesage` subscription repeated at times 0 and 7. -/
theorem subscribe_named_idempotent_witness :
    (subscribeTochannel
        (subscribeTochannel initialState.redis "chat:*" ⟨0, "handleMesage"⟩ 0).1
        "chat:*" ⟨0, "handleMesage"⟩ 7).1 =
      (subscribeTochannel initialState.redis "chat:*" ⟨0, "handleMesage"⟩ 0).1 :=
  subscribe_named_idempotent initialState.redis "chat:*" ⟨0, "handleMesage"⟩ 0 7
    (by decide)

/-- C7: resubscription after a reconnect does not restore the original
handlers.  For the repository's own stored record `("chat:*", "handleMesage")`
the channel contains `*`, so the pattern wrapper is installed, and delivering
any message to it throws a `ReferenceError` on the undeclared identifier
`back`.  For a plain channel record the channel wrapper is installed, and
since named callbacks are never stored on `global`, it warns and drops the
message without invoking anything.  Either way the handler registration is
lost, contradicting the claim. -/
theorem resubscribe_loses_original_handlers :
    resubscribeTochannels [("chat:*", "handleMesage")] =
      [("chat:*", .patternWrapper "handleMesage")] ∧
    invokeListener (fun _ => none) (.patternWrapper "handleMesage") "hello"
        "chat:*" = .thrown (.referenceError "back") ∧
    resubscribeTochannels [("room1", "handleMesage")] =
      [("room1", .channelWrapper "handleMesage")] ∧
    invokeListener (fun _ => none) (.channelWrapper "handleMesage") "hello"
        "room1" = .warned "handleMesage" := by
  refine ⟨by decide, rfl, by decide, rfl⟩

/-- C8: `publishToChannel` raises its `Redis client not connected` error
exactly when the main client is missing or not open; in that case the whole
state — in particular the wire and anything that could act as a buffer — is
unchanged.  When connected, an object payload is sent as its JSON
serialization and a string payload is sent unchanged. -/
theorem publish_error_iff_disconnected (s : RedisState) (ch : String)
    (m : JsValue) :
    ((publishToChannel s ch m).2 =
        .error (.jsError "Redis client not connected") ↔
      ¬(s.mainExists = true ∧ s.mainOpen = true)) ∧
    (¬(s.mainExists = true ∧ s.mainOpen = true) →
      (publishToChannel s ch m).1 = s) ∧
    (s.mainExists = true → s.mainOpen = true →
      ((∀ fields, m = .obj fields →
          (publishToChannel s ch m).1.published =
            s.published ++ [(ch, .str (jsonStringify m))]) ∧
       (∀ str, m = .str str →
          (publishToChannel s ch m).1.published =
            s.published ++ [(ch, .str str)]))) := by
  cases hE : s.mainExists
  · simp [publishToChannel, hE]
  · cases hO : s.mainOpen
    · simp [publishToChannel, hE, hO]
    · refine ⟨by simp [publishToChannel, hE, hO], by simp [hE, hO], ?_⟩
      intro _ _
      constructor
      · rintro fields rfl
        simp [publishToChannel, hE, hO, typeofJs]
      · rintro str rfl
        simp [publishToChannel, hE, hO, typeofJs]

/-- A state whose main client handle exists but is closed (connection lost and
given up). -/
def mainClosedState : RedisState :=
  ⟨true, true, true, false, [], fun _ => none, fun _ => [], []⟩

/-- C8, witness: publishing an object while connected appends its JSON text to
the wire; publishing while the main client is closed leaves the state
untouched. -/
theorem publish_error_iff_disconnected_witness :
    (publishToChannel initialState.redis "lobby"
        (.obj [("body", .pstr "hi")])).1.published =
      initialState.redis.published ++
        [("lobby", .str (jsonStringify (.obj [("body", .pstr "hi")])))] ∧
    (publishToChannel mainClosedState "lobby" (.str "hi")).1 =
      mainClosedState :=
  ⟨((publish_error_iff_disconnected initialState.redis "lobby"
        (.obj [("body", .pstr "hi")])).2.2 rfl rfl).1 [("body", .pstr "hi")] rfl,
   (publish_error_iff_disconnected mainClosedState "lobby" (.str "hi")).2.1
     (by decide)⟩

/-- C9: room membership is a set, not a counter — joining the same room twice
leaves exactly the state of joining it once, and leaving a room the connection
is not in changes nothing. -/
theorem join_leave_set_semantics (s : SocketState) (c : Nat) (r : String) :
    joinRoom (joinRoom s c r) c r = joinRoom s c r ∧
    ((c, r) ∉ s.members → leaveRoom s c r = s) := by
  constructor
  · unfold joinRoom
    exact congrArg SocketState.mk (setAdd_idem s.members (c, r))
  · intro hnm
    unfold leaveRoom
    obtain ⟨ms⟩ := s
    congr 1
    refine List.filter_eq_self.mpr ?_
    intro a ha
    simp only [bne_iff_ne, ne_eq, decide_eq_true_eq]
    rintro rfl
    exact hnm ha

/-- C9, witness: joining `lobby` twice from the empty adapter equals joining
once, and leaving the never-joined `lobby` is the identity. -/
theorem join_leave_set_semantics_witness :
    joinRoom (joinRoom ⟨[]⟩ 1 "lobby") 1 "lobby" = joinRoom ⟨[]⟩ 1 "lobby" ∧
    leaveRoom ⟨[]⟩ 1 "lobby" = ⟨[]⟩ :=
  ⟨(join_leave_set_semantics ⟨[]⟩ 1 "lobby").1,
   (join_leave_set_semantics ⟨[]⟩ 1 "lobby").2 (by simp)⟩

/-- C10: calling `subscribeTochannel` while the pub/sub client is null or not
open throws the `Redis PubSub client not connected` error and returns the
state completely unchanged — in particular `connectionState.subscriptions`
records nothing, because the throw happens before any mutation. -/
theorem subscribe_guard_preserves_state (s : RedisState) (ch : String)
    (cb : Handler) (t : Nat)
    (hng : ¬(s.pubSubExists = true ∧ s.pubSubOpen = true)) :
    subscribeTochannel s ch cb t =
      (s, .error (.jsError "Redis PubSub client not connected")) := by
  cases hE : s.pubSubExists
  · simp [subscribeTochannel, hE]
  · cases hO : s.pubSubOpen
    · simp [subscribeTochannel, hE, hO]
    · exact absurd ⟨hE, hO⟩ hng

/-- A state whose pub/sub client handle is null, with a nonempty registry to
make preservation observable. -/
def pubSubNullState : RedisState :=
  ⟨false, false, true, true, [("chat:*", "handleMesage")], fun _ => none,
    fun _ => [], []⟩

/-- C10, witness: the failing call on the null-client state returns it
verbatim, registry included. -/
theorem subscribe_guard_preserves_state_witness :
    subscribeTochannel pubSubNullState "chat:room1" ⟨0, "handleMesage"⟩ 3 =
      (pubSubNullState,
        .error (.jsError "Redis PubSub client not connected")) :=
  subscribe_guard_preserves_state pubSubNullState "chat:room1"
    ⟨0, "handleMesage"⟩ 3 (by decide)

end Chat
